import Mathlib

/-!
# Verification of the WildFire upload handler (`cloudfunction_code/main.go`)

A shallow embedding of the Go cloud function that reacts to an object upload,
asks the reputation service for a verdict on the object's MD5 hash, and moves
the object to the clean or the quarantine bucket.

Conventions of the embedding:
* Go strings are `String`, byte slices are `List Nat` with entries below 256.
* Go `error` values are `Option GoError` (`none` is `nil`).
* The helpers that talk to the outside world are functions of their arguments
  and of the reply the outside world gives to that call.
* `GCSFileUploaded` produces the trace of the calls it makes, in order,
  together with the way the invocation ends.
-/

namespace Wildfire

/-! ## Standard library: `encoding/base64` and `encoding/hex` -/

/-- The alphabet of `base64.StdEncoding`. -/
def encodeStd : String :=
  "ABCDEFGHIJKLMNOPQRSTUVWXYZabcdefghijklmnopqrstuvwxyz0123456789+/"

/-- The padding character of `base64.StdEncoding`. -/
def padChar : Char := '='

/-- The table `enc.decodeMap`: the position of a character in the standard
alphabet, `none` for a character outside of it (`0xff` in Go). -/
def decodeMap (c : Char) : Option Nat :=
  let i := encodeStd.toList.indexOf c
  if i < 64 then some i else none

/-- The quanta of `base64.StdEncoding.DecodeString`, on an input from which the
ignored characters `\r` and `\n` have been removed: groups of four characters,
the last of which may end in one or two padding characters; anything else is a
`CorruptInputError` (`none`). Four sextets are assembled in `val` and cut into
three bytes. -/
def decodeQuanta : List Char → Option (List Nat)
  | [] => some []
  | a :: b :: c :: d :: rest =>
    if rest = [] ∧ d = padChar then
      if c = padChar then
        match decodeMap a, decodeMap b with
        | some x, some y =>
          let val := x * 262144 + y * 4096
          some [val / 65536 % 256]
        | _, _ => none
      else
        match decodeMap a, decodeMap b, decodeMap c with
        | some x, some y, some z =>
          let val := x * 262144 + y * 4096 + z * 64
          some [val / 65536 % 256, val / 256 % 256]
        | _, _, _ => none
    else
      match decodeMap a, decodeMap b, decodeMap c, decodeMap d with
      | some x, some y, some z, some u =>
        let val := x * 262144 + y * 4096 + z * 64 + u
        match decodeQuanta rest with
        | some bs => some (val / 65536 % 256 :: val / 256 % 256 :: val % 256 :: bs)
        | none => none
      | _, _, _, _ => none
  | _ => none

/-- The function `base64.StdEncoding.DecodeString`: `none` stands for the
error result. Carriage returns and line feeds are skipped. -/
def base64DecodeString (s : String) : Option (List Nat) :=
  decodeQuanta (s.toList.filter (fun c => c ≠ '\n' ∧ c ≠ '\r'))

/-- The table `hextable` of `encoding/hex`. -/
def hextable : String := "0123456789abcdef"

/-- The characters of `hex.EncodeToString`: `hextable[v>>4]`, `hextable[v&0x0f]`
for every byte `v`. -/
def hexEncodeChars : List Nat → List Char
  | [] => []
  | v :: rest =>
    hextable.toList.getD (v / 16) '0' :: hextable.toList.getD (v % 16) '0' :: hexEncodeChars rest

/-- The function `hex.EncodeToString`. -/
def hexEncodeToString (src : List Nat) : String := String.mk (hexEncodeChars src)

/-- The function `decodeGCSMD5Value`: the base64 digest of the event as a
hexadecimal string; the empty string when the digest is not valid base64. -/
def decodeGCSMD5Value (str : String) : String :=
  match base64DecodeString str with
  | none => ""
  | some data => hexEncodeToString data

/-! ## Outside world -/

/-- The fields of `GCSEvent` that the function reads: the object name, its
bucket and the base64 MD5 digest of its content. -/
structure GCSEvent where
  Name : String
  Bucket : String
  MD5Hash : String

/-- The environment variables the function reads through `os.Getenv`. -/
structure Env where
  GCP_PROJECT : String
  QUARANTINE_BUCKET : String
  SCANNED_BUCKET : String

/-- A Go error made by `fmt.Errorf`: the format and its arguments. -/
structure GoError where
  format : String
  args : List String
deriving DecidableEq

/-- The result of a helper: it returns a value, or the process ends in it,
through `log.Fatal` (`exited`) or through a run-time panic (`panicked`). -/
inductive Res (α : Type) where
  | ok (a : α)
  | exited
  | panicked
deriving DecidableEq

/-- What the outside world answers during one call of
`checkWildfireVerdictByMD5`: `secret name` is the payload of the secret, `none`
when the secret manager fails; `post url apikey hash` is the outcome of
`http.PostForm`, `none` when the call itself fails, else the value of the field
`verdict.Verdict` once `xml.Unmarshal` has run on the body, whatever the body
is (the field keeps its zero value, the empty string, when nothing is stored in
it). -/
structure VerdictReply where
  secret : String → Option String
  post : String → String → String → Option String

/-- The outcome of the HTTP exchange of `uploadFileToWildfire`. -/
inductive UploadHttp where
  /-- The call `client.Do` fails: the response is nil. -/
  | doFailed
  /-- The body of the response cannot be read. -/
  | readFailed
  /-- The response is read; `errorMessage` is the value of the field
  `uploadResponse.Error` once `xml.Unmarshal` has run on the body. -/
  | response (errorMessage : String)

/-- What the outside world answers during the call of `uploadFileToWildfire`;
`http url filename contents apikey` is the outcome of the request whose
multipart body carries `contents` under the base name of `filename`. -/
structure UploadReply where
  secret : String → Option String
  http : String → String → String → String → UploadHttp

/-- What the storage service answers during a call of `moveFile`: each field is
the error of the step, `none` when the step succeeds. -/
structure MoveReply where
  newClient : Option String
  copy : String → String → String → Option String
  delete : String → String → Option String

/-- The outside world of one invocation: the environment, the reply to the
first verdict query, the content of objects (`none` when the read fails), the
reply to the submission, the replies to the successive verdict queries of the
poll loop, and the reply of the storage service to a move. -/
structure World where
  env : Env
  first : VerdictReply
  contents : String → String → Option String
  upload : UploadReply
  polls : List VerdictReply
  storage : MoveReply

/-! ## Helpers of `main.go` -/

/-- The function `getSecretValue`: the payload of the secret, or the end of the
process through `log.Fatalln`. -/
def getSecretValue (secret : String → Option String) (name : String) : Res String :=
  match secret name with
  | some payload => .ok payload
  | none => .exited

/-- The `switch verdict.Verdict` of `checkWildfireVerdictByMD5`. -/
def verdictSwitch (raw : String) : String :=
  if raw = "0" then "benign"
  else if raw = "1" then "malware"
  else if raw = "2" then "grayware"
  else if raw = "4" then "phishing"
  else if raw = "5" then "c2"
  else if raw = "-100" then
    "pending, the sample exists, but there is currently no verdict (applicable to file analysis only)"
  else if raw = "-101" then "unknown - error -101"
  else if raw = "-102" then "unknown - cannot find sample record in the database"
  else if raw = "-103" then "unknown - invalid hash value"
  else "unknown - no verdict"

/-- The first part of `checkWildfireVerdictByMD5`: the two secrets, the POST of
the hash, and the `verdict` field of the parsed response. A failing secret or a
failing POST ends the process (`log.Fatal`). -/
def verdictField (env : Env) (md5Hash : String) (r : VerdictReply) : Res String :=
  match getSecretValue r.secret
      ("projects/" ++ env.GCP_PROJECT ++ "/secrets/wildfire_api_portal/versions/latest") with
  | .ok wildfire_api_portal =>
    match getSecretValue r.secret
        ("projects/" ++ env.GCP_PROJECT ++ "/secrets/wildfire_api_key/versions/latest") with
    | .ok wildfire_api_key =>
      match r.post ("https://" ++ wildfire_api_portal ++ "/publicapi/get/verdict")
          wildfire_api_key md5Hash with
      | some verdict => .ok verdict
      | none => .exited
    | _ => .exited
  | _ => .exited

/-- The function `checkWildfireVerdictByMD5`. -/
def checkWildfireVerdictByMD5 (env : Env) (md5Hash : String) (r : VerdictReply) : Res String :=
  match verdictField env md5Hash r with
  | .ok verdict => .ok (verdictSwitch verdict)
  | _ => .exited

/-- The function `uploadFileToWildfire`: `ok none` is the nil return, `ok (some
err)` the error made from a non-empty `error-message`; the process ends when a
secret is missing or the body cannot be read, and it panics on the nil response
of a failed `client.Do`, whose error is only printed. Writing the multipart body
to the in-memory buffer and building the request are taken to succeed. -/
def uploadFileToWildfire (env : Env) (filename contents : String) (r : UploadReply) :
    Res (Option GoError) :=
  match getSecretValue r.secret
      ("projects/" ++ env.GCP_PROJECT ++ "/secrets/wildfire_api_portal/versions/latest") with
  | .ok wildfire_api_portal =>
    match getSecretValue r.secret
        ("projects/" ++ env.GCP_PROJECT ++ "/secrets/wildfire_api_key/versions/latest") with
    | .ok wildfire_api_key =>
      match r.http ("https://" ++ wildfire_api_portal ++ "/publicapi/submit/file")
          filename contents wildfire_api_key with
      | .doFailed => .panicked
      | .readFailed => .exited
      | .response errorMessage =>
        if errorMessage ≠ "" then .ok (some ⟨"%v", [errorMessage]⟩) else .ok none
    | _ => .exited
  | _ => .exited

/-- The function `moveFile`: copy, then delete the source; the first failing
step gives the error. -/
def moveFile (srcBucket dstBucket objName : String) (r : MoveReply) : Option GoError :=
  match r.newClient with
  | some err => some ⟨"storage.NewClient: %v", [err]⟩
  | none =>
    match r.copy srcBucket dstBucket objName with
    | some err => some ⟨"Object(%q).CopierFrom(%q).Run: %v", [objName, objName, err]⟩
    | none =>
      match r.delete srcBucket objName with
      | some err => some ⟨"Object(%q).Delete: %v", [objName, err]⟩
      | none => none

/-- The function `getFileContents`: the content of the object, or the end of
the process through `log.Fatal`. -/
def getFileContents (contents : String → String → Option String) (bucket object : String) :
    Res String :=
  match contents bucket object with
  | some body => .ok body
  | none => .exited

/-! ## The entry point -/

/-- The calls `GCSFileUploaded` makes, with their arguments. -/
inductive Event where
  | checkWildfireVerdictByMD5 (md5Hash : String)
  | printf (text : String)
  | moveFile (srcBucket dstBucket objName : String)
  | logPrint (err : GoError)
  | getFileContents (bucket object : String)
  | uploadFileToWildfire (filename contents : String)
  | sleep (seconds : Nat)
deriving DecidableEq

/-- The way an invocation ends: it returns an error or nil, the process ends
(`log.Fatal`), it panics, or it is still in the poll loop when the replies of
the world have all been used. -/
inductive Outcome where
  | returned (err : Option GoError)
  | exited
  | panicked
  | polling
deriving DecidableEq

/-- An invocation: the calls made, in order, and its end. -/
structure Run where
  trace : List Event
  outcome : Outcome
deriving DecidableEq

/-- The statements `err := moveFile(...); if err != nil { log.Print(err) }`. -/
def moveAndLog (srcBucket dstBucket objName : String) (r : MoveReply) : List Event :=
  match moveFile srcBucket dstBucket objName r with
  | some err => [.moveFile srcBucket dstBucket objName, .logPrint err]
  | none => [.moveFile srcBucket dstBucket objName]

/-- The text of `fmt.Printf("md5 hash: %v, verdict: %v \n", md5Hash, verdict)`. -/
def verdictLine (md5Hash verdict : String) : String :=
  "md5 hash: " ++ md5Hash ++ ", verdict: " ++ verdict ++ " \n"

/-- The `for` loop of `GCSFileUploaded`, one iteration for each reply of the
world: sleep, query, and either move the object and return nil or go on. -/
def pollLoop (env : Env) (e : GCSEvent) (md5Hash : String) (storage : MoveReply) :
    List VerdictReply → Run
  | [] => ⟨[], .polling⟩
  | r :: rest =>
    match checkWildfireVerdictByMD5 env md5Hash r with
    | .ok verdict =>
      if verdict = "malware" ∨ verdict = "phishing" then
        ⟨[.sleep 60, .checkWildfireVerdictByMD5 md5Hash, .printf (verdictLine md5Hash verdict)]
          ++ moveAndLog e.Bucket env.QUARANTINE_BUCKET e.Name storage, .returned none⟩
      else if verdict = "benign" then
        ⟨[.sleep 60, .checkWildfireVerdictByMD5 md5Hash, .printf (verdictLine md5Hash verdict)]
          ++ moveAndLog e.Bucket env.SCANNED_BUCKET e.Name storage, .returned none⟩
      else
        let next := pollLoop env e md5Hash storage rest
        ⟨[.sleep 60, .checkWildfireVerdictByMD5 md5Hash, .printf "waiting for analysis...\n"]
          ++ next.trace, next.outcome⟩
    | .exited => ⟨[.sleep 60, .checkWildfireVerdictByMD5 md5Hash], .exited⟩
    | .panicked => ⟨[.sleep 60, .checkWildfireVerdictByMD5 md5Hash], .panicked⟩

/-- The function `GCSFileUploaded`. -/
def GCSFileUploaded (w : World) (e : GCSEvent) : Run :=
  let quarantineBucket := w.env.QUARANTINE_BUCKET
  let cleanBucket := w.env.SCANNED_BUCKET
  let md5Hash := decodeGCSMD5Value e.MD5Hash
  match checkWildfireVerdictByMD5 w.env md5Hash w.first with
  | .ok verdict =>
    let start : List Event :=
      [.checkWildfireVerdictByMD5 md5Hash, .printf (verdictLine md5Hash verdict)]
    if verdict = "benign" then
      ⟨start ++ moveAndLog e.Bucket cleanBucket e.Name w.storage, .returned none⟩
    else if verdict = "malware" ∨ verdict = "phishing" then
      ⟨start ++ moveAndLog e.Bucket quarantineBucket e.Name w.storage, .returned none⟩
    else
      match getFileContents w.contents e.Bucket e.Name with
      | .ok contents =>
        let submit : List Event := start ++ [.getFileContents e.Bucket e.Name,
          .printf ("uploading " ++ e.Name ++ " to wildfire for analysis \n"),
          .uploadFileToWildfire e.Name contents]
        match uploadFileToWildfire w.env e.Name contents w.upload with
        | .ok (some err) => ⟨submit, .returned (some err)⟩
        | .ok none =>
          let loop := pollLoop w.env e md5Hash w.storage w.polls
          ⟨submit ++ loop.trace, loop.outcome⟩
        | .exited => ⟨submit, .exited⟩
        | .panicked => ⟨submit, .panicked⟩
      | .exited => ⟨start ++ [.getFileContents e.Bucket e.Name], .exited⟩
      | .panicked => ⟨start ++ [.getFileContents e.Bucket e.Name], .panicked⟩
  | .exited => ⟨[.checkWildfireVerdictByMD5 md5Hash], .exited⟩
  | .panicked => ⟨[.checkWildfireVerdictByMD5 md5Hash], .panicked⟩

/-! ## Observations on a trace -/

/-- The hashes of the verdict queries of a trace, in order. -/
def queries : List Event → List String
  | [] => []
  | .checkWildfireVerdictByMD5 h :: t => h :: queries t
  | _ :: t => queries t

/-- The moves of a trace, in order: source bucket, destination bucket, object. -/
def moves : List Event → List (String × String × String)
  | [] => []
  | .moveFile s d o :: t => (s, d, o) :: moves t
  | _ :: t => moves t

/-- The submissions of a trace, in order: file name and content. -/
def uploads : List Event → List (String × String)
  | [] => []
  | .uploadFileToWildfire f c :: t => (f, c) :: uploads t
  | _ :: t => uploads t

/-- The content reads of a trace, in order: bucket and object. -/
def reads : List Event → List (String × String)
  | [] => []
  | .getFileContents b o :: t => (b, o) :: reads t
  | _ :: t => reads t

/-- The errors logged through `log.Print` in a trace, in order. -/
def logged : List Event → List GoError
  | [] => []
  | .logPrint err :: t => err :: logged t
  | _ :: t => logged t


/-- The raw codes of the verdict table whose result is not an unknown one. -/
def knownCodes : List String := ["0", "1", "2", "4", "5", "-100"]

/-- A verdict string of the Unknown kind: it starts with the word `unknown`. -/
def isUnknown (verdict : String) : Bool := verdict.take 7 == "unknown"

/-- The submission failed in the invocation: a submission was made and
`uploadFileToWildfire` did not return nil on it. -/
def submissionFailed (w : World) (e : GCSEvent) : Prop :=
  ∃ fc ∈ uploads (GCSFileUploaded w e).trace,
    uploadFileToWildfire w.env fc.1 fc.2 w.upload ≠ .ok none

/-- The calls of `k` turns of the poll loop that all ask to wait. -/
def waitTrace (h : String) : Nat → List Event
  | 0 => []
  | k + 1 =>
    [.sleep 60, .checkWildfireVerdictByMD5 h, .printf "waiting for analysis...\n"] ++ waitTrace h k

/-! ## Worlds and events of the examples -/

/-- A reply to a verdict query: both secrets are there and the service answers
with the raw code `raw`. -/
def replyRaw (raw : String) : VerdictReply :=
  ⟨fun _ => some "secret", fun _ _ _ => some raw⟩

/-- A reply to a verdict query: both secrets are there and the POST fails. -/
def replyDown : VerdictReply :=
  ⟨fun _ => some "secret", fun _ _ _ => none⟩

/-- A storage service on which every step of a move succeeds. -/
def storageFine : MoveReply := ⟨none, fun _ _ _ => none, fun _ _ => none⟩

/-- A storage service on which the copy fails. -/
def storageBroken : MoveReply := ⟨none, fun _ _ _ => some "denied", fun _ _ => none⟩

/-- A world: first verdict `raw`, poll verdicts `polls`, the submission answered
with the error message `msg`, the storage service `st`. -/
def world (raw : String) (polls : List VerdictReply) (msg : String) (st : MoveReply) : World :=
  ⟨⟨"proj", "quarantine", "scanned"⟩, replyRaw raw, fun _ _ => some "data",
    ⟨fun _ => some "secret", fun _ _ _ _ => .response msg⟩, polls, st⟩

/-- An upload event whose digest decodes to the bytes 1, 2, 3. -/
def upload1 : GCSEvent := ⟨"a.bin", "incoming", "AQID"⟩

/-- An upload event whose digest is not valid base64. -/
def uploadBad : GCSEvent := ⟨"a.bin", "incoming", "not base64!"⟩

/-! ## Facts on the codecs -/

@[simp] theorem queries_append (a b : List Event) : queries (a ++ b) = queries a ++ queries b := by
  induction a with
  | nil => rfl
  | cons x t ih => cases x <;> simp [queries, ih]

@[simp] theorem moves_append (a b : List Event) : moves (a ++ b) = moves a ++ moves b := by
  induction a with
  | nil => rfl
  | cons x t ih => cases x <;> simp [moves, ih]

@[simp] theorem uploads_append (a b : List Event) : uploads (a ++ b) = uploads a ++ uploads b := by
  induction a with
  | nil => rfl
  | cons x t ih => cases x <;> simp [uploads, ih]

@[simp] theorem reads_append (a b : List Event) : reads (a ++ b) = reads a ++ reads b := by
  induction a with
  | nil => rfl
  | cons x t ih => cases x <;> simp [reads, ih]

@[simp] theorem logged_append (a b : List Event) : logged (a ++ b) = logged a ++ logged b := by
  induction a with
  | nil => rfl
  | cons x t ih => cases x <;> simp [logged, ih]

@[simp] theorem moves_moveAndLog (s d o : String) (r : MoveReply) :
    moves (moveAndLog s d o r) = [(s, d, o)] := by
  unfold moveAndLog; split <;> rfl

@[simp] theorem queries_moveAndLog (s d o : String) (r : MoveReply) :
    queries (moveAndLog s d o r) = [] := by
  unfold moveAndLog; split <;> rfl

@[simp] theorem uploads_moveAndLog (s d o : String) (r : MoveReply) :
    uploads (moveAndLog s d o r) = [] := by
  unfold moveAndLog; split <;> rfl

@[simp] theorem reads_moveAndLog (s d o : String) (r : MoveReply) :
    reads (moveAndLog s d o r) = [] := by
  unfold moveAndLog; split <;> rfl

@[simp] theorem logged_moveAndLog (s d o : String) (r : MoveReply) :
    logged (moveAndLog s d o r) = (moveFile s d o r).toList := by
  unfold moveAndLog; split <;> simp [logged, *]

/-- A raw code other than 0, 1 and 4 gives a verdict that is neither `benign`
nor `malware` nor `phishing`. -/
theorem verdictSwitch_waiting {raw : String} (h0 : raw ≠ "0") (h1 : raw ≠ "1") (h4 : raw ≠ "4") :
    verdictSwitch raw ≠ "benign" ∧ verdictSwitch raw ≠ "malware"
      ∧ verdictSwitch raw ≠ "phishing" := by
  simp only [verdictSwitch, h0, h1, h4, if_false]
  split_ifs <;> decide

theorem checkWildfireVerdictByMD5_of_field {env : Env} {h : String} {r : VerdictReply}
    {raw : String} (hf : verdictField env h r = .ok raw) :
    checkWildfireVerdictByMD5 env h r = .ok (verdictSwitch raw) := by
  simp only [checkWildfireVerdictByMD5, hf]

/-- One turn of the poll loop on a verdict that asks to wait. -/
theorem pollLoop_wait (env : Env) (e : GCSEvent) (h : String) (st : MoveReply)
    (r : VerdictReply) (rest : List VerdictReply) (raw : String)
    (hf : verdictField env h r = .ok raw) (h0 : raw ≠ "0") (h1 : raw ≠ "1") (h4 : raw ≠ "4") :
    pollLoop env e h st (r :: rest) =
      ⟨[.sleep 60, .checkWildfireVerdictByMD5 h, .printf "waiting for analysis...\n"]
        ++ (pollLoop env e h st rest).trace, (pollLoop env e h st rest).outcome⟩ := by
  obtain ⟨hb, hm, hp⟩ := verdictSwitch_waiting h0 h1 h4
  simp only [pollLoop, checkWildfireVerdictByMD5_of_field hf, hb, hm, hp, or_self, if_false]

/-- One turn of the poll loop on a verdict that routes the object. -/
theorem pollLoop_route (env : Env) (e : GCSEvent) (h : String) (st : MoveReply)
    (r : VerdictReply) (rest : List VerdictReply) (raw : String)
    (hf : verdictField env h r = .ok raw) (hr : raw = "0" ∨ raw = "1" ∨ raw = "4") :
    pollLoop env e h st (r :: rest) =
      ⟨[.sleep 60, .checkWildfireVerdictByMD5 h, .printf (verdictLine h (verdictSwitch raw))]
        ++ moveAndLog e.Bucket (if raw = "0" then env.SCANNED_BUCKET else env.QUARANTINE_BUCKET)
          e.Name st, .returned none⟩ := by
  rcases hr with hr | hr | hr <;> subst hr <;>
    simp only [pollLoop, checkWildfireVerdictByMD5_of_field hf] <;> rfl

/-- The ends of the poll loop: either it returns nil after exactly one move,
whose error, if any, is the one logged, or it makes no move and logs nothing;
it never reads or submits the object. -/
theorem pollLoop_ends (env : Env) (e : GCSEvent) (h : String) (st : MoveReply) :
    ∀ l : List VerdictReply,
      (((pollLoop env e h st l).outcome = .returned none
          ∧ ∃ dst, moves (pollLoop env e h st l).trace = [(e.Bucket, dst, e.Name)]
            ∧ logged (pollLoop env e h st l).trace = (moveFile e.Bucket dst e.Name st).toList)
        ∨ (((pollLoop env e h st l).outcome = .exited ∨ (pollLoop env e h st l).outcome = .polling)
          ∧ moves (pollLoop env e h st l).trace = []
          ∧ logged (pollLoop env e h st l).trace = []))
      ∧ uploads (pollLoop env e h st l).trace = []
      ∧ reads (pollLoop env e h st l).trace = []
  | [] => by simp [pollLoop, moves, logged, uploads, reads]
  | r :: rest => by
    have ih := pollLoop_ends env e h st rest
    unfold pollLoop
    split
    · split_ifs
      · simp [moves, logged, uploads, reads]
      · simp [moves, logged, uploads, reads]
      · simpa [moves, logged, uploads, reads] using ih
    · simp [moves, logged, uploads, reads]
    · rename_i hp
      simp [checkWildfireVerdictByMD5] at hp
      split at hp <;> simp at hp

/-- The ends of an invocation: either it returns nil after exactly one move,
whose error, if any, is the one logged, or it does not return nil, makes no
move and logs nothing. -/
theorem GCSFileUploaded_ends (w : World) (e : GCSEvent) :
    ((GCSFileUploaded w e).outcome = .returned none
      ∧ ∃ dst, moves (GCSFileUploaded w e).trace = [(e.Bucket, dst, e.Name)]
        ∧ logged (GCSFileUploaded w e).trace = (moveFile e.Bucket dst e.Name w.storage).toList)
    ∨ ((GCSFileUploaded w e).outcome ≠ .returned none
      ∧ moves (GCSFileUploaded w e).trace = []
      ∧ logged (GCSFileUploaded w e).trace = []) := by
  have hl := (pollLoop_ends w.env e (decodeGCSMD5Value e.MD5Hash) w.storage w.polls).1
  simp only [GCSFileUploaded]
  cases checkWildfireVerdictByMD5 w.env (decodeGCSMD5Value e.MD5Hash) w.first with
  | exited => simp [moves, logged]
  | panicked => simp [moves, logged]
  | ok verdict =>
    by_cases hb : verdict = "benign"
    · simp [hb, moves, logged]
    · by_cases hm : verdict = "malware" ∨ verdict = "phishing"
      · simp [if_neg hb, if_pos hm, moves, logged]
      · simp only [if_neg hb, if_neg hm]
        cases getFileContents w.contents e.Bucket e.Name with
        | exited => simp [moves, logged]
        | panicked => simp [moves, logged]
        | ok contents =>
          dsimp only
          cases uploadFileToWildfire w.env e.Name contents w.upload with
          | exited => simp [moves, logged]
          | panicked => simp [moves, logged]
          | ok r =>
            cases r with
            | some err => simp [moves, logged]
            | none =>
              rcases hl with ⟨ho, dst, hm, hg⟩ | ⟨ho, hm, hg⟩
              · left
                simp [moves, logged, ho, hm, hg]
              · right
                rcases ho with ho | ho <;> simp [moves, logged, ho, hm, hg]

theorem getLast?_append_two (l : List Event) (x y : Event) :
    (l ++ [x, y]).getLast? = some y := by
  have hl : l ++ [x, y] = (l ++ [x]) ++ [y] := by simp
  rw [hl, List.getLast?_concat]

theorem replicate_snoc (n : Nat) (a : String) :
    List.replicate n a ++ [a] = a :: List.replicate n a := by
  rw [← List.replicate_succ', List.replicate_succ]

@[simp] theorem queries_waitTrace (h : String) (k : Nat) :
    queries (waitTrace h k) = List.replicate k h := by
  induction k with
  | zero => rfl
  | succ k ih => simp [waitTrace, queries, ih, List.replicate_succ]

@[simp] theorem moves_waitTrace (h : String) (k : Nat) : moves (waitTrace h k) = [] := by
  induction k with
  | zero => rfl
  | succ k ih => simp [waitTrace, moves, ih]

@[simp] theorem uploads_waitTrace (h : String) (k : Nat) : uploads (waitTrace h k) = [] := by
  induction k with
  | zero => rfl
  | succ k ih => simp [waitTrace, uploads, ih]

@[simp] theorem reads_waitTrace (h : String) (k : Nat) : reads (waitTrace h k) = [] := by
  induction k with
  | zero => rfl
  | succ k ih => simp [waitTrace, reads, ih]

/-- The poll loop on replies that all ask to wait, followed by other replies. -/
theorem pollLoop_waits (env : Env) (e : GCSEvent) (h : String) (st : MoveReply)
    (tail : List VerdictReply) : ∀ pre : List VerdictReply,
    (∀ r ∈ pre, ∃ raw, verdictField env h r = .ok raw ∧ raw ≠ "0" ∧ raw ≠ "1" ∧ raw ≠ "4") →
    pollLoop env e h st (pre ++ tail) =
      ⟨waitTrace h pre.length ++ (pollLoop env e h st tail).trace,
        (pollLoop env e h st tail).outcome⟩
  | [], _ => by simp [waitTrace]
  | r :: pre, hpre => by
    obtain ⟨raw, hf, h0, h1, h4⟩ := hpre r (List.mem_cons_self _ _)
    have ih := pollLoop_waits env e h st tail pre
      (fun r hr => hpre r (List.mem_cons_of_mem _ hr))
    rw [List.cons_append, pollLoop_wait env e h st r (pre ++ tail) raw hf h0 h1 h4, ih]
    simp [waitTrace]

/-- One turn of the poll loop on a query in which the process ends. -/
theorem pollLoop_exit (env : Env) (e : GCSEvent) (h : String) (st : MoveReply)
    (r : VerdictReply) (rest : List VerdictReply) (hf : verdictField env h r = .exited) :
    pollLoop env e h st (r :: rest) =
      ⟨[.sleep 60, .checkWildfireVerdictByMD5 h], .exited⟩ := by
  simp only [pollLoop, checkWildfireVerdictByMD5, hf]

/-- The invocation on a first verdict that asks to wait, when the content is
read and the submission is accepted: the calls up to the submission, then the
poll loop. -/
theorem GCSFileUploaded_submitted (w : World) (e : GCSEvent) (raw contents : String)
    (hq : verdictField w.env (decodeGCSMD5Value e.MD5Hash) w.first = .ok raw)
    (h0 : raw ≠ "0") (h1 : raw ≠ "1") (h4 : raw ≠ "4")
    (hc : w.contents e.Bucket e.Name = some contents)
    (hu : uploadFileToWildfire w.env e.Name contents w.upload = .ok none) :
    GCSFileUploaded w e =
      ⟨[.checkWildfireVerdictByMD5 (decodeGCSMD5Value e.MD5Hash),
          .printf (verdictLine (decodeGCSMD5Value e.MD5Hash) (verdictSwitch raw)),
          .getFileContents e.Bucket e.Name,
          .printf ("uploading " ++ e.Name ++ " to wildfire for analysis \n"),
          .uploadFileToWildfire e.Name contents]
        ++ (pollLoop w.env e (decodeGCSMD5Value e.MD5Hash) w.storage w.polls).trace,
        (pollLoop w.env e (decodeGCSMD5Value e.MD5Hash) w.storage w.polls).outcome⟩ := by
  obtain ⟨hb, hm, hp⟩ := verdictSwitch_waiting h0 h1 h4
  simp [GCSFileUploaded, checkWildfireVerdictByMD5_of_field hq, hb, hm, hp, getFileContents,
    hc, hu]

/-- The poll loop reads only the name and the bucket of the event. -/
theorem pollLoop_congr (env : Env) (e e' : GCSEvent) (h : String) (st : MoveReply)
    (hn : e.Name = e'.Name) (hb : e.Bucket = e'.Bucket) :
    ∀ l : List VerdictReply, pollLoop env e h st l = pollLoop env e' h st l
  | [] => rfl
  | r :: rest => by
    have ih := pollLoop_congr env e e' h st hn hb rest
    simp only [pollLoop, hn, hb, ih]

/-- Every verdict query of the poll loop carries the hash given to the loop. -/
theorem pollLoop_queries (env : Env) (e : GCSEvent) (h : String) (st : MoveReply) :
    ∀ l : List VerdictReply, ∀ q ∈ queries (pollLoop env e h st l).trace, q = h
  | [] => by simp [pollLoop, queries]
  | r :: rest => by
    have ih := pollLoop_queries env e h st rest
    unfold pollLoop
    cases checkWildfireVerdictByMD5 env h r with
    | exited => simp [queries]
    | panicked => simp [queries]
    | ok verdict =>
      dsimp only
      split_ifs
      · simp [queries]
      · simp [queries]
      · simpa [queries] using ih

/-- Every verdict query of an invocation carries the hash decoded from the
digest of the event. -/
theorem GCSFileUploaded_queries (w : World) (e : GCSEvent) :
    ∀ q ∈ queries (GCSFileUploaded w e).trace, q = decodeGCSMD5Value e.MD5Hash := by
  have hl := pollLoop_queries w.env e (decodeGCSMD5Value e.MD5Hash) w.storage w.polls
  simp only [GCSFileUploaded]
  cases checkWildfireVerdictByMD5 w.env (decodeGCSMD5Value e.MD5Hash) w.first with
  | exited => simp [queries]
  | panicked => simp [queries]
  | ok verdict =>
    by_cases hb : verdict = "benign"
    · simp [hb, queries]
    · by_cases hm : verdict = "malware" ∨ verdict = "phishing"
      · simp [if_neg hb, if_pos hm, queries]
      · simp only [if_neg hb, if_neg hm]
        cases getFileContents w.contents e.Bucket e.Name with
        | exited => simp [queries]
        | panicked => simp [queries]
        | ok contents =>
          dsimp only
          cases uploadFileToWildfire w.env e.Name contents w.upload with
          | exited => simp [queries]
          | panicked => simp [queries]
          | ok res =>
            cases res with
            | some err => simp [queries]
            | none => simpa [queries] using hl

/-- The submission of an invocation whose first verdict asks to wait and whose
content read succeeds: the object is submitted once, under its name. -/
theorem GCSFileUploaded_uploads (w : World) (e : GCSEvent) (raw contents : String)
    (hq : verdictField w.env (decodeGCSMD5Value e.MD5Hash) w.first = .ok raw)
    (h0 : raw ≠ "0") (h1 : raw ≠ "1") (h4 : raw ≠ "4")
    (hc : w.contents e.Bucket e.Name = some contents) :
    uploads (GCSFileUploaded w e).trace = [(e.Name, contents)] := by
  obtain ⟨hb, hm, hp⟩ := verdictSwitch_waiting h0 h1 h4
  have hl := (pollLoop_ends w.env e (decodeGCSMD5Value e.MD5Hash) w.storage w.polls).2.1
  simp only [GCSFileUploaded, checkWildfireVerdictByMD5_of_field hq, hb, hm, hp, or_self,
    if_false, getFileContents, hc]
  cases uploadFileToWildfire w.env e.Name contents w.upload with
  | exited => simp [uploads]
  | panicked => simp [uploads]
  | ok res =>
    cases res with
    | some err => simp [uploads]
    | none => simp [uploads, hl]

/-! ## The claims -/

/-- C5: the verdict switch follows the table on its nine listed codes, sends
every other raw value to `unknown - no verdict`, gives six pairwise distinct
results on the codes 0, 1, 2, 4, 5 and -100, none of which is an unknown result,
and gives an unknown result on every other raw value. -/
theorem verdictSwitch_table :
    verdictSwitch "0" = "benign" ∧ verdictSwitch "1" = "malware"
    ∧ verdictSwitch "2" = "grayware" ∧ verdictSwitch "4" = "phishing"
    ∧ verdictSwitch "5" = "c2"
    ∧ verdictSwitch "-100" =
      "pending, the sample exists, but there is currently no verdict (applicable to file analysis only)"
    ∧ verdictSwitch "-101" = "unknown - error -101"
    ∧ verdictSwitch "-102" = "unknown - cannot find sample record in the database"
    ∧ verdictSwitch "-103" = "unknown - invalid hash value"
    ∧ verdictSwitch "" = "unknown - no verdict"
    ∧ (∀ raw : String, raw ∉ knownCodes ++ ["-101", "-102", "-103"] →
        verdictSwitch raw = "unknown - no verdict")
    ∧ (knownCodes.map verdictSwitch).Nodup
    ∧ (∀ raw ∈ knownCodes, isUnknown (verdictSwitch raw) = false)
    ∧ (∀ raw : String, raw ∉ knownCodes → isUnknown (verdictSwitch raw) = true) := by
  refine ⟨by decide, by decide, by decide, by decide, by decide, by simp [verdictSwitch],
    by decide, by decide, by decide, by decide, ?_, by simp [knownCodes, verdictSwitch],
    by set_option maxRecDepth 8000 in decide, ?_⟩
  · intro raw hraw
    simp only [knownCodes, List.cons_append, List.nil_append, List.mem_cons, List.mem_singleton,
      List.not_mem_nil, or_false, not_or] at hraw
    obtain ⟨h0, h1, h2, h4, h5, h100, h101, h102, h103⟩ := hraw
    simp only [verdictSwitch, h0, h1, h2, h4, h5, h100, h101, h102, h103, if_false]
  · intro raw hraw
    simp only [knownCodes, List.mem_cons, List.mem_singleton, List.not_mem_nil, or_false,
      not_or] at hraw
    obtain ⟨h0, h1, h2, h4, h5, h100⟩ := hraw
    simp only [verdictSwitch, h0, h1, h2, h4, h5, h100, if_false]
    split
    · decide
    · split
      · decide
      · split
        · decide
        · decide

/-- Witness of C5: the value `7` is outside of the table. -/
theorem verdictSwitch_table_witness :
    verdictSwitch "7" = "unknown - no verdict" ∧ isUnknown (verdictSwitch "7") = true :=
  ⟨verdictSwitch_table.2.2.2.2.2.2.2.2.2.2.1 "7" (by decide),
    verdictSwitch_table.2.2.2.2.2.2.2.2.2.2.2.2.2 "7" (by decide)⟩

/-- C1: when the first verdict query yields the raw code 0, the function makes
exactly one move, from the bucket of the event to the clean bucket, under the
name of the event; when it yields 1, exactly one move to the quarantine bucket.
In both cases it reads no content, submits nothing, makes no other verdict
query and returns nil. -/
theorem GCSFileUploaded_known_verdict (w : World) (e : GCSEvent) (raw : String)
    (hq : verdictField w.env (decodeGCSMD5Value e.MD5Hash) w.first = .ok raw)
    (hraw : raw = "0" ∨ raw = "1") :
    moves (GCSFileUploaded w e).trace =
        [(e.Bucket, if raw = "0" then w.env.SCANNED_BUCKET else w.env.QUARANTINE_BUCKET, e.Name)]
    ∧ reads (GCSFileUploaded w e).trace = []
    ∧ uploads (GCSFileUploaded w e).trace = []
    ∧ queries (GCSFileUploaded w e).trace = [decodeGCSMD5Value e.MD5Hash]
    ∧ (GCSFileUploaded w e).outcome = .returned none := by
  have hc := checkWildfireVerdictByMD5_of_field hq
  rcases hraw with hraw | hraw <;> subst hraw <;>
    simp only [GCSFileUploaded, hc] <;>
    simp [verdictSwitch, moves, reads, uploads, queries]

/-- Witness of C1: a benign object goes to the clean bucket. -/
theorem GCSFileUploaded_known_verdict_witness :
    moves (GCSFileUploaded (world "0" [] "" storageFine) upload1).trace
      = [("incoming", "scanned", "a.bin")] :=
  (GCSFileUploaded_known_verdict (world "0" [] "" storageFine) upload1 "0" (by decide)
    (Or.inl rfl)).1

/-- C4: in every invocation, whatever its end, at most one move is made. -/
theorem GCSFileUploaded_moves_at_most_once (w : World) (e : GCSEvent) :
    (moves (GCSFileUploaded w e).trace).length ≤ 1 := by
  rcases GCSFileUploaded_ends w e with ⟨_, dst, hm, _⟩ | ⟨_, hm, _⟩ <;> simp [hm]

/-- C3: after a first verdict that asks to wait, a content read and an accepted
submission, when the first `k` poll replies ask to wait and the next one yields
0, 1 or 4, the invocation makes `k + 2` verdict queries in all (the first one
and `k + 1` polls), all with the hash of the first query, then makes its only
move, to the clean bucket for 0 and to the quarantine bucket for 1 and 4, and
returns nil; no move comes before that last query. The poll loop itself makes
`k + 1` queries. -/
theorem GCSFileUploaded_poll_until_verdict (w : World) (e : GCSEvent)
    (raw contents rawT : String) (pre rest : List VerdictReply) (t : VerdictReply)
    (hq : verdictField w.env (decodeGCSMD5Value e.MD5Hash) w.first = .ok raw)
    (h0 : raw ≠ "0") (h1 : raw ≠ "1") (h4 : raw ≠ "4")
    (hc : w.contents e.Bucket e.Name = some contents)
    (hu : uploadFileToWildfire w.env e.Name contents w.upload = .ok none)
    (hp : w.polls = pre ++ t :: rest)
    (hpre : ∀ r ∈ pre, ∃ c, verdictField w.env (decodeGCSMD5Value e.MD5Hash) r = .ok c
      ∧ c ≠ "0" ∧ c ≠ "1" ∧ c ≠ "4")
    (ht : verdictField w.env (decodeGCSMD5Value e.MD5Hash) t = .ok rawT)
    (hT : rawT = "0" ∨ rawT = "1" ∨ rawT = "4") :
    (∃ before, (GCSFileUploaded w e).trace = before ++ moveAndLog e.Bucket
          (if rawT = "0" then w.env.SCANNED_BUCKET else w.env.QUARANTINE_BUCKET) e.Name w.storage
        ∧ moves before = []
        ∧ queries before = List.replicate (pre.length + 2) (decodeGCSMD5Value e.MD5Hash))
    ∧ queries (pollLoop w.env e (decodeGCSMD5Value e.MD5Hash) w.storage w.polls).trace
        = List.replicate (pre.length + 1) (decodeGCSMD5Value e.MD5Hash)
    ∧ queries (GCSFileUploaded w e).trace
        = List.replicate (pre.length + 2) (decodeGCSMD5Value e.MD5Hash)
    ∧ moves (GCSFileUploaded w e).trace =
        [(e.Bucket, if rawT = "0" then w.env.SCANNED_BUCKET else w.env.QUARANTINE_BUCKET, e.Name)]
    ∧ (GCSFileUploaded w e).outcome = .returned none := by
  rw [GCSFileUploaded_submitted w e raw contents hq h0 h1 h4 hc hu, hp,
    pollLoop_waits w.env e _ w.storage (t :: rest) pre hpre,
    pollLoop_route w.env e _ w.storage t rest rawT ht hT]
  refine ⟨⟨[.checkWildfireVerdictByMD5 (decodeGCSMD5Value e.MD5Hash),
      .printf (verdictLine (decodeGCSMD5Value e.MD5Hash) (verdictSwitch raw)),
      .getFileContents e.Bucket e.Name,
      .printf ("uploading " ++ e.Name ++ " to wildfire for analysis \n"),
      .uploadFileToWildfire e.Name contents]
    ++ waitTrace (decodeGCSMD5Value e.MD5Hash) pre.length
    ++ [.sleep 60, .checkWildfireVerdictByMD5 (decodeGCSMD5Value e.MD5Hash),
      .printf (verdictLine (decodeGCSMD5Value e.MD5Hash) (verdictSwitch rawT))],
    by simp, ?_, ?_⟩, ?_, ?_, ?_, rfl⟩
  · simp [moves]
  · simp [queries, List.replicate_succ, replicate_snoc]
  · simp [queries, List.replicate_succ, replicate_snoc]
  · simp [queries, List.replicate_succ, replicate_snoc]
  · simp [moves]

/-- Witness of C3: the polls -100 and 1 give two poll queries after the first
one, and one move to the quarantine bucket. -/
theorem GCSFileUploaded_poll_until_verdict_witness :
    queries (GCSFileUploaded (world "-100" [replyRaw "-100", replyRaw "1"] "" storageFine)
        upload1).trace = ["010203", "010203", "010203"]
    ∧ moves (GCSFileUploaded (world "-100" [replyRaw "-100", replyRaw "1"] "" storageFine)
        upload1).trace = [("incoming", "quarantine", "a.bin")]
    ∧ (GCSFileUploaded (world "-100" [replyRaw "-100", replyRaw "1"] "" storageFine)
        upload1).outcome = .returned none :=
  (GCSFileUploaded_poll_until_verdict
    (world "-100" [replyRaw "-100", replyRaw "1"] "" storageFine) upload1
    "-100" "data" "1" [replyRaw "-100"] [] (replyRaw "1")
    (by decide) (by decide) (by decide) (by decide) rfl (by decide) rfl
    (fun r hr => by
      rw [List.mem_singleton] at hr
      subst hr
      exact ⟨"-100", by decide, by decide, by decide, by decide⟩)
    (by decide) (Or.inr (Or.inl rfl))).2.2

/-- C8: after a first verdict that asks to wait, when the service answers the
submission with a non-empty error message `m`, the invocation returns the error
made of `m`; the submission is its last call, the first verdict query stays the
only one and no move is made. -/
theorem GCSFileUploaded_submission_error (w : World) (e : GCSEvent)
    (raw contents portal key m : String)
    (hq : verdictField w.env (decodeGCSMD5Value e.MD5Hash) w.first = .ok raw)
    (h0 : raw ≠ "0") (h1 : raw ≠ "1") (h4 : raw ≠ "4")
    (hc : w.contents e.Bucket e.Name = some contents)
    (hportal : w.upload.secret
      ("projects/" ++ w.env.GCP_PROJECT ++ "/secrets/wildfire_api_portal/versions/latest")
        = some portal)
    (hkey : w.upload.secret
      ("projects/" ++ w.env.GCP_PROJECT ++ "/secrets/wildfire_api_key/versions/latest")
        = some key)
    (hresp : w.upload.http ("https://" ++ portal ++ "/publicapi/submit/file") e.Name contents key
      = .response m)
    (hm : m ≠ "") :
    (GCSFileUploaded w e).outcome = .returned (some ⟨"%v", [m]⟩)
    ∧ (GCSFileUploaded w e).trace.getLast? = some (.uploadFileToWildfire e.Name contents)
    ∧ queries (GCSFileUploaded w e).trace = [decodeGCSMD5Value e.MD5Hash]
    ∧ moves (GCSFileUploaded w e).trace = [] := by
  obtain ⟨hb, hma, hp⟩ := verdictSwitch_waiting h0 h1 h4
  have hu : uploadFileToWildfire w.env e.Name contents w.upload = .ok (some ⟨"%v", [m]⟩) := by
    simp [uploadFileToWildfire, getSecretValue, hportal, hkey, hresp, hm]
  simp [GCSFileUploaded, checkWildfireVerdictByMD5_of_field hq, hb, hma, hp, getFileContents,
    hc, hu, queries, moves]

/-- Witness of C8: the service rejects the submission with the message `bad`. -/
theorem GCSFileUploaded_submission_error_witness :
    (GCSFileUploaded (world "-102" [replyRaw "0"] "bad" storageFine) upload1).outcome
      = .returned (some ⟨"%v", ["bad"]⟩) :=
  (GCSFileUploaded_submission_error (world "-102" [replyRaw "0"] "bad" storageFine) upload1
    "-102" "data" "secret" "secret" "bad" (by decide) (by decide) (by decide) (by decide)
    rfl rfl rfl rfl (by decide)).1

/-- C9: when the invocation returns, it returns an error exactly when the
submission failed. Whenever a move is made, be it on the first verdict or in
the poll loop, and whether it fails or not, the invocation returns nil, that
move is the only one, and what is logged is exactly the error of that move, if
any. -/
theorem GCSFileUploaded_error_policy (w : World) (e : GCSEvent) :
    (∀ r, (GCSFileUploaded w e).outcome = .returned r → (r ≠ none ↔ submissionFailed w e))
    ∧ (moves (GCSFileUploaded w e).trace ≠ [] →
        (GCSFileUploaded w e).outcome = .returned none
        ∧ ∃ dst, moves (GCSFileUploaded w e).trace = [(e.Bucket, dst, e.Name)]
          ∧ logged (GCSFileUploaded w e).trace
              = (moveFile e.Bucket dst e.Name w.storage).toList) := by
  constructor
  · have hl := pollLoop_ends w.env e (decodeGCSMD5Value e.MD5Hash) w.storage w.polls
    intro r
    simp only [submissionFailed, GCSFileUploaded]
    cases checkWildfireVerdictByMD5 w.env (decodeGCSMD5Value e.MD5Hash) w.first with
    | exited => simp
    | panicked => simp
    | ok verdict =>
      by_cases hb : verdict = "benign"
      · simp only [if_pos hb]
        intro hr
        simp only [Outcome.returned.injEq] at hr
        subst hr
        simp [uploads]
      · by_cases hm : verdict = "malware" ∨ verdict = "phishing"
        · simp only [if_neg hb, if_pos hm]
          intro hr
          simp only [Outcome.returned.injEq] at hr
          subst hr
          simp [uploads]
        · simp only [if_neg hb, if_neg hm]
          cases getFileContents w.contents e.Bucket e.Name with
          | exited => simp
          | panicked => simp
          | ok contents =>
            dsimp only
            cases hu : uploadFileToWildfire w.env e.Name contents w.upload with
            | exited => simp
            | panicked => simp
            | ok res =>
              cases res with
              | some err =>
                intro hr
                simp only [Outcome.returned.injEq] at hr
                subst hr
                simp [uploads, hu]
              | none =>
                dsimp only
                intro hr
                obtain ⟨hends, hup, _⟩ := hl
                have hnone : r = none := by
                  rcases hends with ⟨ho, _⟩ | ⟨ho, _⟩
                  · rw [ho] at hr
                    simp only [Outcome.returned.injEq] at hr
                    exact hr.symm
                  · rcases ho with ho | ho <;> rw [ho] at hr <;> simp at hr
                subst hnone
                simp [uploads, hup, hu]
  · intro hne
    rcases GCSFileUploaded_ends w e with ⟨ho, hd⟩ | ⟨_, hm, _⟩
    · exact ⟨ho, hd⟩
    · exact absurd hm hne

/-- Witness of C9: a rejected submission is a failed one, and a move whose copy
fails still ends in a nil return. -/
theorem GCSFileUploaded_error_policy_witness :
    submissionFailed (world "-102" [] "bad" storageFine) upload1
    ∧ (GCSFileUploaded (world "1" [] "" storageBroken) upload1).outcome = .returned none :=
  ⟨((GCSFileUploaded_error_policy (world "-102" [] "bad" storageFine) upload1).1
      (some ⟨"%v", ["bad"]⟩) (by decide)).mp (by simp),
    ((GCSFileUploaded_error_policy (world "1" [] "" storageBroken) upload1).2 (by decide)).1⟩

/-- Counterexample to C6: the digest of the event is not valid base64, and the
invocation queries the verdict of the empty hash, reads the object and submits
it. -/
theorem decode_failure_counterexample :
    base64DecodeString uploadBad.MD5Hash = none
    ∧ queries (GCSFileUploaded (world "-103" [] "" storageFine) uploadBad).trace = [""]
    ∧ uploads (GCSFileUploaded (world "-103" [] "" storageFine) uploadBad).trace
      = [("a.bin", "data")] := by
  decide

/-- C6 as amended: when the digest of the event is not valid base64,
`decodeGCSMD5Value` gives the empty string and the invocation does not abort:
it is the invocation on the same object with an empty digest. Its first call is
a verdict query with the empty hash, and all its verdict queries carry the
empty hash. When that first query yields 0 the object is moved to the clean
bucket, when it yields 1 or 4 to the quarantine bucket, with no read, no
submission and a nil return; when the process ends in that query, nothing else
is done. On any other raw code the content is read: the process ends there when
the read fails, else the object is submitted. When the submission does not
return nil, it is the last call and the invocation ends as the submission does,
returning its error if it returned one. When the submission is accepted the
poll loop runs with the empty hash, and when `k` polls ask to wait and the next
one yields 0, 1 or 4, the invocation makes `k + 2` queries with the empty hash,
one move to the bucket of that verdict, and returns nil. -/
theorem GCSFileUploaded_decode_failure (w : World) (e : GCSEvent)
    (h : base64DecodeString e.MD5Hash = none) :
    decodeGCSMD5Value e.MD5Hash = ""
    ∧ GCSFileUploaded w e = GCSFileUploaded w ⟨e.Name, e.Bucket, ""⟩
    ∧ (GCSFileUploaded w e).trace.head? = some (.checkWildfireVerdictByMD5 "")
    ∧ (∀ q ∈ queries (GCSFileUploaded w e).trace, q = "")
    ∧ (∀ raw, verdictField w.env "" w.first = .ok raw → (raw = "0" ∨ raw = "1" ∨ raw = "4") →
        moves (GCSFileUploaded w e).trace =
            [(e.Bucket, if raw = "0" then w.env.SCANNED_BUCKET else w.env.QUARANTINE_BUCKET,
              e.Name)]
        ∧ reads (GCSFileUploaded w e).trace = []
        ∧ uploads (GCSFileUploaded w e).trace = []
        ∧ queries (GCSFileUploaded w e).trace = [""]
        ∧ (GCSFileUploaded w e).outcome = .returned none)
    ∧ (verdictField w.env "" w.first = .exited →
        GCSFileUploaded w e = ⟨[.checkWildfireVerdictByMD5 ""], .exited⟩)
    ∧ (∀ raw, verdictField w.env "" w.first = .ok raw →
        raw ≠ "0" → raw ≠ "1" → raw ≠ "4" → w.contents e.Bucket e.Name = none →
        GCSFileUploaded w e =
          ⟨[.checkWildfireVerdictByMD5 "", .printf (verdictLine "" (verdictSwitch raw)),
            .getFileContents e.Bucket e.Name], .exited⟩)
    ∧ (∀ raw contents, verdictField w.env "" w.first = .ok raw →
        raw ≠ "0" → raw ≠ "1" → raw ≠ "4" → w.contents e.Bucket e.Name = some contents →
        uploads (GCSFileUploaded w e).trace = [(e.Name, contents)]
        ∧ (uploadFileToWildfire w.env e.Name contents w.upload ≠ .ok none →
            GCSFileUploaded w e =
              ⟨[.checkWildfireVerdictByMD5 "", .printf (verdictLine "" (verdictSwitch raw)),
                  .getFileContents e.Bucket e.Name,
                  .printf ("uploading " ++ e.Name ++ " to wildfire for analysis \n"),
                  .uploadFileToWildfire e.Name contents],
                match uploadFileToWildfire w.env e.Name contents w.upload with
                | .ok err => .returned err
                | .exited => .exited
                | .panicked => .panicked⟩)
        ∧ (uploadFileToWildfire w.env e.Name contents w.upload = .ok none →
            GCSFileUploaded w e =
              ⟨[.checkWildfireVerdictByMD5 "", .printf (verdictLine "" (verdictSwitch raw)),
                  .getFileContents e.Bucket e.Name,
                  .printf ("uploading " ++ e.Name ++ " to wildfire for analysis \n"),
                  .uploadFileToWildfire e.Name contents]
                ++ (pollLoop w.env e "" w.storage w.polls).trace,
                (pollLoop w.env e "" w.storage w.polls).outcome⟩))
    ∧ (∀ (raw contents rawT : String) (pre rest : List VerdictReply) (t : VerdictReply),
        verdictField w.env "" w.first = .ok raw →
        raw ≠ "0" → raw ≠ "1" → raw ≠ "4" → w.contents e.Bucket e.Name = some contents →
        uploadFileToWildfire w.env e.Name contents w.upload = .ok none →
        w.polls = pre ++ t :: rest →
        (∀ r ∈ pre, ∃ c, verdictField w.env "" r = .ok c ∧ c ≠ "0" ∧ c ≠ "1" ∧ c ≠ "4") →
        verdictField w.env "" t = .ok rawT → (rawT = "0" ∨ rawT = "1" ∨ rawT = "4") →
        queries (GCSFileUploaded w e).trace = List.replicate (pre.length + 2) ""
        ∧ moves (GCSFileUploaded w e).trace =
            [(e.Bucket, if rawT = "0" then w.env.SCANNED_BUCKET else w.env.QUARANTINE_BUCKET,
              e.Name)]
        ∧ (GCSFileUploaded w e).outcome = .returned none) := by
  have hd : decodeGCSMD5Value e.MD5Hash = "" := by
    simp only [decodeGCSMD5Value, h]
  have hempty : decodeGCSMD5Value "" = "" := by decide
  refine ⟨hd, ?_, ?_, ?_, ?_, ?_, ?_, ?_, ?_⟩
  · simp only [GCSFileUploaded, hd, hempty]
    rw [pollLoop_congr w.env e ⟨e.Name, e.Bucket, ""⟩ "" w.storage rfl rfl w.polls]
  · simp only [GCSFileUploaded, hd]
    cases checkWildfireVerdictByMD5 w.env "" w.first with
    | exited => rfl
    | panicked => rfl
    | ok verdict =>
      dsimp only
      split_ifs
      · rfl
      · rfl
      · cases getFileContents w.contents e.Bucket e.Name with
        | exited => rfl
        | panicked => rfl
        | ok contents =>
          dsimp only
          cases uploadFileToWildfire w.env e.Name contents w.upload with
          | exited => rfl
          | panicked => rfl
          | ok res =>
            cases res with
            | some err => rfl
            | none => rfl
  · intro q hq
    have hall := GCSFileUploaded_queries w e q hq
    rw [hd] at hall
    exact hall
  · intro raw hq hraw
    have hc := checkWildfireVerdictByMD5_of_field hq
    rcases hraw with hraw | hraw | hraw <;> subst hraw <;>
      simp only [GCSFileUploaded, hd, hc] <;>
      simp [verdictSwitch, moves, reads, uploads, queries]
  · intro hq
    simp only [GCSFileUploaded, hd, checkWildfireVerdictByMD5, hq]
  · intro raw hq h0 h1 h4 hc
    obtain ⟨hb, hm, hp⟩ := verdictSwitch_waiting h0 h1 h4
    simp [GCSFileUploaded, hd, checkWildfireVerdictByMD5_of_field hq, hb, hm, hp,
      getFileContents, hc]
  · intro raw contents hq h0 h1 h4 hc
    have hq' : verdictField w.env (decodeGCSMD5Value e.MD5Hash) w.first = .ok raw := by
      rw [hd]; exact hq
    refine ⟨GCSFileUploaded_uploads w e raw contents hq' h0 h1 h4 hc, ?_, ?_⟩
    · intro hu
      obtain ⟨hb, hm, hp⟩ := verdictSwitch_waiting h0 h1 h4
      simp only [GCSFileUploaded, hd, checkWildfireVerdictByMD5_of_field hq, hb, hm, hp,
        or_self, if_false, getFileContents, hc]
      cases hres : uploadFileToWildfire w.env e.Name contents w.upload with
      | exited => rfl
      | panicked => rfl
      | ok res =>
        cases res with
        | some err => rfl
        | none => exact absurd hres hu
    intro hu
    have hs := GCSFileUploaded_submitted w e raw contents hq' h0 h1 h4 hc hu
    rw [hd] at hs
    exact hs
  · intro raw contents rawT pre rest t hq h0 h1 h4 hc hu hp hpre ht hT
    have hq' : verdictField w.env (decodeGCSMD5Value e.MD5Hash) w.first = .ok raw := by
      rw [hd]; exact hq
    have hs := GCSFileUploaded_submitted w e raw contents hq' h0 h1 h4 hc hu
    rw [hd] at hs
    rw [hs, hp, pollLoop_waits w.env e "" w.storage (t :: rest) pre hpre,
      pollLoop_route w.env e "" w.storage t rest rawT ht hT]
    refine ⟨?_, ?_, rfl⟩
    · simp [queries, List.replicate_succ, replicate_snoc]
    · simp [moves]

/-- Witness of C6 as amended: on the digest `not base64!` and a first verdict 1
for the empty hash, the object goes to the quarantine bucket. -/
theorem GCSFileUploaded_decode_failure_witness :
    base64DecodeString uploadBad.MD5Hash = none
    ∧ moves (GCSFileUploaded (world "1" [] "" storageFine) uploadBad).trace
      = [("incoming", "quarantine", "a.bin")]
    ∧ (GCSFileUploaded (world "1" [] "" storageFine) uploadBad).outcome = .returned none :=
  ⟨by decide,
    ((GCSFileUploaded_decode_failure (world "1" [] "" storageFine) uploadBad (by decide)).2.2.2.2.1
      "1" (by decide) (Or.inr (Or.inl rfl))).1,
    ((GCSFileUploaded_decode_failure (world "1" [] "" storageFine) uploadBad (by decide)).2.2.2.2.1
      "1" (by decide) (Or.inr (Or.inl rfl))).2.2.2.2⟩

/-- Counterexample to C10: the first poll fails at the transport level and the
second would yield 0; the process ends at the first poll, the second poll is
never made and the object is not moved. -/
theorem poll_transport_counterexample :
    (GCSFileUploaded (world "-100" [replyDown, replyRaw "0"] "" storageFine) upload1).outcome
      = .exited
    ∧ queries (GCSFileUploaded (world "-100" [replyDown, replyRaw "0"] "" storageFine)
        upload1).trace = ["010203", "010203"]
    ∧ moves (GCSFileUploaded (world "-100" [replyDown, replyRaw "0"] "" storageFine)
        upload1).trace = [] := by
  decide

/-- C10 as amended: after a first verdict that asks to wait, a content read and
an accepted submission, when the first `k` poll replies ask to wait and the POST
of the next poll fails, the process ends in that poll: that query is the last
one, whatever the later replies are, and no move is made. -/
theorem GCSFileUploaded_poll_transport_failure (w : World) (e : GCSEvent)
    (raw contents portal key : String) (pre rest : List VerdictReply) (t : VerdictReply)
    (hq : verdictField w.env (decodeGCSMD5Value e.MD5Hash) w.first = .ok raw)
    (h0 : raw ≠ "0") (h1 : raw ≠ "1") (h4 : raw ≠ "4")
    (hc : w.contents e.Bucket e.Name = some contents)
    (hu : uploadFileToWildfire w.env e.Name contents w.upload = .ok none)
    (hp : w.polls = pre ++ t :: rest)
    (hpre : ∀ r ∈ pre, ∃ c, verdictField w.env (decodeGCSMD5Value e.MD5Hash) r = .ok c
      ∧ c ≠ "0" ∧ c ≠ "1" ∧ c ≠ "4")
    (hportal : t.secret
      ("projects/" ++ w.env.GCP_PROJECT ++ "/secrets/wildfire_api_portal/versions/latest")
        = some portal)
    (hkey : t.secret
      ("projects/" ++ w.env.GCP_PROJECT ++ "/secrets/wildfire_api_key/versions/latest")
        = some key)
    (hpost : t.post ("https://" ++ portal ++ "/publicapi/get/verdict") key
      (decodeGCSMD5Value e.MD5Hash) = none) :
    (GCSFileUploaded w e).outcome = .exited
    ∧ queries (GCSFileUploaded w e).trace
        = List.replicate (pre.length + 2) (decodeGCSMD5Value e.MD5Hash)
    ∧ (GCSFileUploaded w e).trace.getLast?
        = some (.checkWildfireVerdictByMD5 (decodeGCSMD5Value e.MD5Hash))
    ∧ moves (GCSFileUploaded w e).trace = [] := by
  have ht : verdictField w.env (decodeGCSMD5Value e.MD5Hash) t = .exited := by
    simp [verdictField, getSecretValue, hportal, hkey, hpost]
  rw [GCSFileUploaded_submitted w e raw contents hq h0 h1 h4 hc hu, hp,
    pollLoop_waits w.env e _ w.storage (t :: rest) pre hpre,
    pollLoop_exit w.env e _ w.storage t rest ht]
  refine ⟨rfl, ?_, ?_, ?_⟩
  · simp [queries, List.replicate_succ, replicate_snoc]
  · dsimp only
    rw [← List.append_assoc]
    exact getLast?_append_two _ _ _
  · simp [moves]

/-- Witness of C10 as amended: a failing first poll ends the process. -/
theorem GCSFileUploaded_poll_transport_failure_witness :
    (GCSFileUploaded (world "-100" [replyDown, replyRaw "0"] "" storageFine) upload1).outcome
      = .exited :=
  (GCSFileUploaded_poll_transport_failure
    (world "-100" [replyDown, replyRaw "0"] "" storageFine) upload1
    "-100" "data" "secret" "secret" [] [replyRaw "0"] replyDown
    (by decide) (by decide) (by decide) (by decide) rfl (by decide) rfl
    (fun r hr => absurd hr (List.not_mem_nil r)) rfl rfl rfl).1

end Wildfire
